import Mathlib

/-!
Verification of the incoming slot-migration subsystem
(`src/server/cluster/incoming_slot_migration.cc` / `src/server/journal/journal.cc`).

The flow (`ClusterShardMigration`) and coordinator (`IncomingSlotMigration`)
are embedded shallowly: every external interaction (socket reads via
`TransactionReader::NextTxData`, `ExecutionState::IsRunning`, the coordinator
state observed via `GetState`, the executor's result and the latch's
`WaitFor`) is supplied positionally by oracle lists, so an execution of the
embedded function corresponds to one interleaved execution of the C++ code.
State mutated by the code itself (the latch Dec/Add counts, `last_attempt_`,
errors reported on the two contexts, `state_` writes) is threaded explicitly.
-/

namespace Dfly

/-- journal::Op, the opcode set of a journal entry. -/
inductive Op
  | NOOP
  | SELECT
  | COMMAND
  | MULTI_COMMAND
  | EXEC
  | PING
  | LSN
  | FIN
deriving DecidableEq, Repr

/-- MigrationState, the coordinator's state machine values. -/
inductive MigrationState
  | C_CONNECTING
  | C_SYNC
  | C_FINISHED
  | C_FATAL
deriving DecidableEq, Repr

/-- std::error_code as the flow distinguishes it: success (`{}`),
`std::errc::not_enough_memory`, or any other error. -/
inductive ErrC
  | ok
  | not_enough_memory
  | other (msg : String)
deriving DecidableEq, Repr

/-- TransactionData, the fields of a decoded transaction that the flow uses.
`is_global` stands for the result of `TransactionData::IsGlobalCmd()`
(defined in `tx_executor`, not under src/; per the spec it is the external
predicate `is_global_command(command) → bool`). -/
structure TransactionData where
  opcode : Op
  lsn : Int
  cmd_args : List String
  dbid : Nat
  is_global : Bool
deriving DecidableEq, Repr

/-- Modelled from the spec: ExecutionState (not under src/) is "an explicit
value carrying `is_running()` and an error slot"; errors are recorded, not
thrown. `IsRunning` answers are supplied by oracles (the context can be
cancelled concurrently), so only the recorded errors are carried here. -/
structure ExecutionState where
  errors : List String
deriving DecidableEq, Repr

/-- `cntx->ReportError(e)`: record `e` on the execution context. -/
def ExecutionState.ReportError (c : ExecutionState) (e : String) : ExecutionState :=
  { errors := c.errors ++ [e] }

/-- The coordinator-side effects a flow run performs:
`IncomingSlotMigration::ReportError` and `ReportFatalError` calls
(both declared in the header, not under src/). -/
structure CoordLog where
  reports : List String
  fatalReports : List String
deriving DecidableEq, Repr

/-- Modelled from the spec: `IncomingSlotMigration::ReportError` records the
error on the coordinator's context; it does not change the state. -/
def CoordLog.report (c : CoordLog) (e : String) : CoordLog :=
  { c with reports := c.reports ++ [e] }

/-- Modelled from the spec: `IncomingSlotMigration::ReportFatalError` records
the error and forces the absorbing state `C_FATAL`. -/
def CoordLog.reportFatal (c : CoordLog) (e : String) : CoordLog :=
  { c with fatalReports := c.fatalReports ++ [e] }

/-- Modelled from the spec: the coordinator state as observed after a flow
run, given the state `base` the environment would otherwise report:
`ReportFatalError` forces the absorbing `C_FATAL`. -/
def coordStateAfter (base : MigrationState) (coord : CoordLog) : MigrationState :=
  if coord.fatalReports = [] then base else MigrationState.C_FATAL

/-- Modelled from the spec: the constant `kIncomingMigrationOOM` declared in
`server/error.h` (not under src/). Its exact text is immaterial; src/ passes
the same constant to both report calls. -/
def kIncomingMigrationOOM : String := "Incoming migration OOM error"

/-- State a flow run mutates: `last_attempt_` (atomic, initially -1), the
latch operations it has performed (`bc_->Dec()` / `bc_->Add()` counts), and
the errors reported on the two contexts. -/
structure FlowSt where
  last_attempt : Int
  decs : Nat
  adds : Nat
  cntx : ExecutionState
  coord : CoordLog
deriving DecidableEq, Repr

/-- The initial flow state: `last_attempt_{-1}`, no latch operations, no
errors reported. -/
def initFlowSt : FlowSt :=
  { last_attempt := -1, decs := 0, adds := 0, cntx := ⟨[]⟩, coord := ⟨[], []⟩ }

/-- How `ClusterShardMigration::Start` exits. -/
inductive FlowExit
  | alreadyFinished
  | notRunning
  | readFail
  | cleanFinal
  | fatalAbort
  | oomBreak
deriving DecidableEq, Repr

/-- Result of a `Start` run. -/
structure FlowResult where
  st : FlowSt
  exitKind : FlowExit
deriving DecidableEq, Repr

/-- `is_finished_` and `socket_`, the mutex-guarded control fields of a flow
(`socket` is whether `socket_ != nullptr`). -/
structure FlowCtl where
  is_finished : Bool
  socket : Bool
deriving DecidableEq, Repr

namespace ClusterShardMigration

/-- `ClusterShardMigration::ExecuteTx(tx_data, cntx)`. Oracles: `running` is
the answer to `cntx->IsRunning()`; `execResult` is what
`executor_.Execute(dbid, command)` returns if invoked (the executor is
external per the spec; its result is an oracle). Returns the error code, the
updated contexts, and whether the executor was invoked. -/
def ExecuteTx (tx : TransactionData) (running : Bool) (execResult : ErrC)
    (cntx : ExecutionState) (coord : CoordLog) :
    ErrC × ExecutionState × CoordLog × Bool :=
  if running = false then
    (ErrC.ok, cntx, coord, false)
  else if tx.is_global = false then
    (execResult, cntx, coord, true)
  else
    let error := "We don't support command: " ++ tx.cmd_args.headD "" ++
      " in cluster migration process."
    (ErrC.ok, cntx.ReportError error, coord.report error, false)

/-- The inner `while (tx_data->opcode == journal::Op::LSN)` loop of `Start`:
store the attempt in `last_attempt_`, `bc_->Dec()`, read one more
transaction; no data means clean finalization (`return`), coordinator
`C_FATAL` means abort (`return`), otherwise `bc_->Add()` and re-test the new
transaction. `Sum.inl` is a `return` from `Start`; `Sum.inr` hands the first
non-LSN transaction back to the outer loop with the remaining oracles. -/
def lsnLoop (st : FlowSt) (tx : TransactionData)
    (reads : List (Option TransactionData)) (states : List MigrationState) :
    (FlowSt × FlowExit) ⊕
      (FlowSt × TransactionData × List (Option TransactionData) × List MigrationState) :=
  if tx.opcode = Op.LSN then
    let st1 : FlowSt := { st with last_attempt := tx.lsn, decs := st.decs + 1 }
    match reads with
    | [] => Sum.inl (st1, FlowExit.cleanFinal)
    | Option.none :: _ => Sum.inl (st1, FlowExit.cleanFinal)
    | Option.some tx2 :: reads' =>
      if states.headD MigrationState.C_SYNC = MigrationState.C_FATAL then
        Sum.inl (st1, FlowExit.fatalAbort)
      else
        lsnLoop { st1 with adds := st1.adds + 1 } tx2 reads' states.tail
  else
    Sum.inr (st, tx, reads, states)

/-- The `bc_->Dec()` after the outer loop of `Start` ("we should provide
ability to join the flow"), executed on every loop exit (break or condition
false). -/
def finishDec (st : FlowSt) (e : FlowExit) : FlowResult :=
  { st := { st with decs := st.decs + 1 }, exitKind := e }

/-- The outer `while (cntx->IsRunning())` loop of `Start`. Oracles, consumed
positionally: `runs` answers `cntx->IsRunning()` at the loop head (default
false: exit), `pauses` answers the `pause_` load, `reads` answers
`TransactionReader::NextTxData` (default none: stream ended), `states`
answers `in_migration_->GetState()` inside the LSN loop, `execRuns` answers
`cntx->IsRunning()` inside `ExecuteTx`, `execs` the executor's results. -/
def startLoop (st : FlowSt) (runs pauses : List Bool)
    (reads : List (Option TransactionData)) (states : List MigrationState)
    (execRuns : List Bool) (execs : List ErrC) : FlowResult :=
  match runs with
  | [] => finishDec st FlowExit.notRunning
  | r :: runs' =>
    if r = false then
      finishDec st FlowExit.notRunning
    else if pauses.headD false = true then
      startLoop st runs' pauses.tail reads states execRuns execs
    else
      match reads with
      | [] => finishDec st FlowExit.readFail
      | Option.none :: _ => finishDec st FlowExit.readFail
      | Option.some tx :: reads' =>
        match lsnLoop st tx reads' states with
        | Sum.inl (st1, e) => { st := st1, exitKind := e }
        | Sum.inr (st1, tx1, reads1, states1) =>
          if tx1.opcode = Op.PING then
            startLoop st1 runs' pauses.tail reads1 states1 execRuns execs
          else
            let res := ExecuteTx tx1 (execRuns.headD false) (execs.headD ErrC.ok)
              st1.cntx st1.coord
            let st2 : FlowSt := { st1 with cntx := res.2.1, coord := res.2.2.1 }
            let execs' := if res.2.2.2 = true then execs.tail else execs
            if res.1 = ErrC.not_enough_memory then
              let st3 : FlowSt := { st2 with
                cntx := st2.cntx.ReportError kIncomingMigrationOOM,
                coord := st2.coord.reportFatal kIncomingMigrationOOM }
              finishDec st3 FlowExit.oomBreak
            else
              startLoop st2 runs' pauses.tail reads1 states1 execRuns.tail execs'

/-- `ClusterShardMigration::Start(cntx, source)`: under the mutex, return at
once if `is_finished_`, else mark finished and record the socket; the scoped
cleanup clears the socket on every exit path; then run the loop. -/
def Start (ctl : FlowCtl) (st : FlowSt) (runs pauses : List Bool)
    (reads : List (Option TransactionData)) (states : List MigrationState)
    (execRuns : List Bool) (execs : List ErrC) : FlowCtl × FlowResult :=
  if ctl.is_finished = true then
    (ctl, { st := st, exitKind := FlowExit.alreadyFinished })
  else
    ({ is_finished := true, socket := false },
      startLoop st runs pauses reads states execRuns execs)

/-- Result of `ClusterShardMigration::Cancel()`: the new control fields, the
number of `bc_->Dec()` calls performed, whether `Shutdown` was invoked on the
socket, and the returned error code. -/
structure CancelResult where
  ctl : FlowCtl
  decs : Nat
  shutdownCalled : Bool
  ec : ErrC
deriving DecidableEq, Repr

/-- `ClusterShardMigration::Cancel()`: with a bound socket, hop to its
proactor and shut it down if open (returning the shutdown error code);
otherwise, if the flow never started, mark it finished and `bc_->Dec()`. -/
def Cancel (ctl : FlowCtl) (socketOpen : Bool) (shutdownEc : ErrC) : CancelResult :=
  if ctl.socket = true then
    if socketOpen = true then
      { ctl := ctl, decs := 0, shutdownCalled := true, ec := shutdownEc }
    else
      { ctl := ctl, decs := 0, shutdownCalled := false, ec := ErrC.ok }
  else if ctl.is_finished = false then
    { ctl := { ctl with is_finished := true }, decs := 1,
      shutdownCalled := false, ec := ErrC.ok }
  else
    { ctl := ctl, decs := 0, shutdownCalled := false, ec := ErrC.ok }

end ClusterShardMigration

namespace IncomingSlotMigration

/-- One iteration of `Join`'s polling loop, as the environment answers it:
`now` is `absl::Now()` at the loop head (milliseconds), `state` the
`GetState()` answer, `lastAttempts` the `GetLastAttempt()` snapshot of every
flow in `shard_flows_`, and `waitRes` the result of
`bc_->WaitFor(wait_time)`. -/
structure JoinIter where
  now : Int
  state : MigrationState
  lastAttempts : List Int
  waitRes : Bool
deriving DecidableEq, Repr

/-- How `Join` returned. -/
inductive JoinExit
  | timeoutExpired
  | fatal
  | staleData
  | success
deriving DecidableEq, Repr

/-- Result of a `Join` run: the returned bool, the exit branch, the write to
`state_` (if any), whether `keys_number_ = GetKeyCount(slots_)` was cached,
the errors passed to `ReportError`, every `(remaining_time, wait_time)` pair
handed to `bc_->WaitFor`, and the iteration at which `Join` returned. -/
structure JoinResult where
  ret : Bool
  exitKind : JoinExit
  stateWrite : Option MigrationState
  keysCached : Bool
  errors : List String
  waits : List (Int × Int)
  finalIter : Option JoinIter
deriving DecidableEq, Repr

/-- `IncomingSlotMigration::Join(attempt)`. `startT` is `absl::Now()` before
the loop, `timeout` the `migration_finalization_timeout_ms` flag value.
Returns none when the supplied iteration trace ends before `Join` does. -/
def Join (attempt : Int) (startT timeout : Int) (iters : List JoinIter) :
    Option JoinResult :=
  match iters with
  | [] => none
  | it :: rest =>
    let passed := it.now - startT
    if passed ≥ timeout then
      some { ret := false, exitKind := JoinExit.timeoutExpired, stateWrite := none,
             keysCached := false, errors := ["Can't join migration in time"],
             waits := [], finalIter := some it }
    else if it.state = MigrationState.C_FATAL then
      some { ret := false, exitKind := JoinExit.fatal, stateWrite := none,
             keysCached := false, errors := [], waits := [], finalIter := some it }
    else
      let remaining := timeout - passed
      let wait_time := if remaining > 100 then 100 else remaining
      if it.lastAttempts.all (fun a => a = attempt) = true then
        if it.waitRes = true then
          some { ret := true, exitKind := JoinExit.success,
                 stateWrite := some MigrationState.C_FINISHED, keysCached := true,
                 errors := [], waits := [(remaining, wait_time)], finalIter := some it }
        else
          some { ret := false, exitKind := JoinExit.staleData, stateWrite := none,
                 keysCached := false, errors := ["Can't join migration in time"],
                 waits := [(remaining, wait_time)], finalIter := some it }
      else
        match Join attempt startT timeout rest with
        | none => none
        | some r => some { r with waits := (remaining, wait_time) :: r.waits }

/-- One iteration of `Stop`'s wait loop: `now` is `absl::Now()` at the loop
head, `waitRes` the result of `bc_->WaitFor(timeout - passed)`. -/
structure StopIter where
  now : Int
  waitRes : Bool
deriving DecidableEq, Repr

/-- The wait loop at the end of `Stop`: each iteration computes `passed`,
waits on the latch for the full remaining time, returns on success, and
otherwise returns (logging) once `passed ≥ timeout`. Yields every
`(passed, wait duration)` pair handed to `WaitFor` and whether the loop
exited through the timeout log. -/
def stopWaitLoop (startT timeout : Int) (iters : List StopIter) :
    Option (List (Int × Int) × Bool) :=
  match iters with
  | [] => none
  | it :: rest =>
    let passed := it.now - startT
    let dur := timeout - passed
    if it.waitRes = true then
      some ([(passed, dur)], false)
    else if passed ≥ timeout then
      some ([(passed, dur)], true)
    else
      match stopWaitLoop startT timeout rest with
      | none => none
      | some (ws, t) => some ((passed, dur) :: ws, t)

/-- Result of a `Stop` run: `cntx_.Cancel()` happened, every flow's
`Cancel()` result, every `(passed, duration)` handed to `WaitFor`, and
whether the "Can't stop migration in time" log was reached. -/
structure StopResult where
  cntxCanceled : Bool
  flowResults : List ClusterShardMigration.CancelResult
  waitCalls : List (Int × Int)
  timedOut : Bool
deriving DecidableEq, Repr

/-- `IncomingSlotMigration::Stop()`: cancel the context, cancel every flow,
then — unless the state is `C_FATAL` — wait on the latch with the
finalization timeout. `flows` carries each flow's control fields together
with its `IsOpen`/shutdown-error oracles for `Cancel`. -/
def Stop (state : MigrationState)
    (flows : List (FlowCtl × Bool × ErrC)) (startT timeout : Int)
    (iters : List StopIter) : Option StopResult :=
  let cancels := flows.map (fun f => ClusterShardMigration.Cancel f.1 f.2.1 f.2.2)
  if state = MigrationState.C_FATAL then
    some { cntxCanceled := true, flowResults := cancels, waitCalls := [],
           timedOut := false }
  else
    match stopWaitLoop startT timeout iters with
    | none => none
    | some (ws, t) =>
      some { cntxCanceled := true, flowResults := cancels, waitCalls := ws,
             timedOut := t }

/-- `IncomingSlotMigration::StartFlow(shard, source)`: run the flow's
`Start`; afterwards, if `GetState() == C_FATAL`, call `Stop()`. `baseState`
is the coordinator state the environment would report had this flow not
called `ReportFatalError` (which forces the absorbing `C_FATAL`). Returns
the flow's result and whether `Stop()` was invoked. -/
def StartFlow (ctl : FlowCtl) (st : FlowSt) (runs pauses : List Bool)
    (reads : List (Option TransactionData)) (states : List MigrationState)
    (execRuns : List Bool) (execs : List ErrC) (baseState : MigrationState) :
    (FlowCtl × FlowResult) × Bool :=
  let r := ClusterShardMigration.Start ctl st runs pauses reads states execRuns execs
  (r, coordStateAfter baseState r.2.st.coord = MigrationState.C_FATAL)

end IncomingSlotMigration

/-- Concrete fixture for the C3 and C4 witnesses: a plain single-shard
command transaction. -/
def cmdTx : TransactionData :=
  ⟨Op.COMMAND, 0, ["SET", "a", "1"], 0, false⟩

/-- Concrete fixture for the C8 witness: a FLUSHALL arriving mid-migration. -/
def globalTx : TransactionData :=
  ⟨Op.COMMAND, 0, ["FLUSHALL"], 0, true⟩

/-- Concrete fixture for the C2 witness: the single polling iteration sees
both flows at attempt 2 and a successful latch wait. -/
def c2JoinIter : IncomingSlotMigration.JoinIter :=
  ⟨10, MigrationState.C_SYNC, [2, 2], true⟩

/-- The join result `Join 2 0 1000 [c2JoinIter]` computes to. -/
def c2JoinRes : IncomingSlotMigration.JoinResult :=
  { ret := true, exitKind := IncomingSlotMigration.JoinExit.success,
    stateWrite := some MigrationState.C_FINISHED, keysCached := true,
    errors := [], waits := [(990, 100)], finalIter := some c2JoinIter }

/-- Concrete fixture for the C7 witness: a join polled once, 2000 ms past a
1000 ms deadline. -/
def c7JoinRes : IncomingSlotMigration.JoinResult :=
  { ret := false, exitKind := IncomingSlotMigration.JoinExit.timeoutExpired,
    stateWrite := none, keysCached := false,
    errors := ["Can't join migration in time"], waits := [],
    finalIter := some ⟨2000, MigrationState.C_SYNC, [2], false⟩ }

end Dfly

namespace Dfly
namespace ClusterShardMigration

theorem lsnLoop_nil (st : FlowSt) (tx : TransactionData) (states : List MigrationState) :
    lsnLoop st tx [] states =
      if tx.opcode = Op.LSN then
        Sum.inl ({ st with last_attempt := tx.lsn, decs := st.decs + 1 }, FlowExit.cleanFinal)
      else Sum.inr (st, tx, [], states) := rfl

theorem lsnLoop_none (st : FlowSt) (tx : TransactionData)
    (rest : List (Option TransactionData)) (states : List MigrationState) :
    lsnLoop st tx (Option.none :: rest) states =
      if tx.opcode = Op.LSN then
        Sum.inl ({ st with last_attempt := tx.lsn, decs := st.decs + 1 }, FlowExit.cleanFinal)
      else Sum.inr (st, tx, Option.none :: rest, states) := rfl

theorem lsnLoop_some (st : FlowSt) (tx tx2 : TransactionData)
    (reads' : List (Option TransactionData)) (states : List MigrationState) :
    lsnLoop st tx (Option.some tx2 :: reads') states =
      if tx.opcode = Op.LSN then
        if states.headD MigrationState.C_SYNC = MigrationState.C_FATAL then
          Sum.inl ({ st with last_attempt := tx.lsn, decs := st.decs + 1 }, FlowExit.fatalAbort)
        else
          lsnLoop { st with last_attempt := tx.lsn, decs := st.decs + 1, adds := st.adds + 1 }
            tx2 reads' states.tail
      else Sum.inr (st, tx, Option.some tx2 :: reads', states) := rfl

/-- Latch arithmetic of the LSN inner loop: every `return` from inside it
leaves exactly one net `bc_->Dec()`; handing a transaction back to the outer
loop is balanced (every `Dec` matched by an `Add`). -/
theorem lsnLoop_balance :
    ∀ (reads : List (Option TransactionData)) (st : FlowSt) (tx : TransactionData)
      (states : List MigrationState),
    (∀ st1 e, lsnLoop st tx reads states = Sum.inl (st1, e) →
      st1.decs + st.adds = st1.adds + st.decs + 1) ∧
    (∀ st1 tx1 reads1 states1,
      lsnLoop st tx reads states = Sum.inr (st1, tx1, reads1, states1) →
      st1.decs + st.adds = st1.adds + st.decs) := by
  intro reads
  induction reads with
  | nil =>
    intro st tx states
    constructor
    · intro st1 e h
      rw [lsnLoop_nil] at h
      split at h
      · simp only [Sum.inl.injEq, Prod.mk.injEq] at h
        obtain ⟨h1, -⟩ := h
        subst h1
        try dsimp only
        omega
      · simp at h
    · intro st1 tx1 reads1 states1 h
      rw [lsnLoop_nil] at h
      split at h
      · simp at h
      · simp only [Sum.inr.injEq, Prod.mk.injEq] at h
        obtain ⟨h1, -⟩ := h
        subst h1
        try dsimp only
        omega
  | cons hd tl ih =>
    intro st tx states
    constructor
    · intro st1 e h
      match hd with
      | Option.none =>
        rw [lsnLoop_none] at h
        split at h
        · simp only [Sum.inl.injEq, Prod.mk.injEq] at h
          obtain ⟨h1, -⟩ := h
          subst h1
          try dsimp only
          omega
        · simp at h
      | Option.some tx2 =>
        rw [lsnLoop_some] at h
        split at h
        · split at h
          · simp only [Sum.inl.injEq, Prod.mk.injEq] at h
            obtain ⟨h1, -⟩ := h
            subst h1
            try dsimp only
            omega
          · have := (ih _ tx2 states.tail).1 st1 e h
            simp only at this
            omega
        · simp at h
    · intro st1 tx1 reads1 states1 h
      match hd with
      | Option.none =>
        rw [lsnLoop_none] at h
        split at h
        · simp at h
        · simp only [Sum.inr.injEq, Prod.mk.injEq] at h
          obtain ⟨h1, -⟩ := h
          subst h1
          try dsimp only
          omega
      | Option.some tx2 =>
        rw [lsnLoop_some] at h
        split at h
        · split at h
          · simp at h
          · have := (ih _ tx2 states.tail).2 st1 tx1 reads1 states1 h
            simp only at this
            omega
        · simp only [Sum.inr.injEq, Prod.mk.injEq] at h
          obtain ⟨h1, -⟩ := h
          subst h1
          try dsimp only
          omega

end ClusterShardMigration
end Dfly

namespace Dfly
namespace ClusterShardMigration

theorem startLoop_nil (st : FlowSt) (pauses : List Bool)
    (reads : List (Option TransactionData)) (states : List MigrationState)
    (execRuns : List Bool) (execs : List ErrC) :
    startLoop st [] pauses reads states execRuns execs =
      finishDec st FlowExit.notRunning := rfl

theorem startLoop_cons (st : FlowSt) (r : Bool) (runs' pauses : List Bool)
    (reads : List (Option TransactionData)) (states : List MigrationState)
    (execRuns : List Bool) (execs : List ErrC) :
    startLoop st (r :: runs') pauses reads states execRuns execs =
      (if r = false then
        finishDec st FlowExit.notRunning
      else if pauses.headD false = true then
        startLoop st runs' pauses.tail reads states execRuns execs
      else
        match reads with
        | [] => finishDec st FlowExit.readFail
        | Option.none :: _ => finishDec st FlowExit.readFail
        | Option.some tx :: reads' =>
          match lsnLoop st tx reads' states with
          | Sum.inl (st1, e) => { st := st1, exitKind := e }
          | Sum.inr (st1, tx1, reads1, states1) =>
            if tx1.opcode = Op.PING then
              startLoop st1 runs' pauses.tail reads1 states1 execRuns execs
            else
              let res := ExecuteTx tx1 (execRuns.headD false) (execs.headD ErrC.ok)
                st1.cntx st1.coord
              let st2 : FlowSt := { st1 with cntx := res.2.1, coord := res.2.2.1 }
              let execs' := if res.2.2.2 = true then execs.tail else execs
              if res.1 = ErrC.not_enough_memory then
                let st3 : FlowSt := { st2 with
                  cntx := st2.cntx.ReportError kIncomingMigrationOOM,
                  coord := st2.coord.reportFatal kIncomingMigrationOOM }
                finishDec st3 FlowExit.oomBreak
              else
                startLoop st2 runs' pauses.tail reads1 states1 execRuns.tail execs') := rfl

/-- Latch arithmetic of the outer loop of `Start`: every terminating run
performs exactly one net `bc_->Dec()`. -/
theorem startLoop_balance :
    ∀ (runs : List Bool) (st : FlowSt) (pauses : List Bool)
      (reads : List (Option TransactionData)) (states : List MigrationState)
      (execRuns : List Bool) (execs : List ErrC),
    (startLoop st runs pauses reads states execRuns execs).st.decs + st.adds
      = (startLoop st runs pauses reads states execRuns execs).st.adds + st.decs + 1 := by
  intro runs
  induction runs with
  | nil =>
    intro st pauses reads states execRuns execs
    rw [startLoop_nil]
    dsimp [finishDec]
    omega
  | cons r runs' ih =>
    intro st pauses reads states execRuns execs
    rw [startLoop_cons]
    split
    · dsimp [finishDec]
      omega
    · split
      · exact ih st pauses.tail reads states execRuns execs
      · rcases reads with - | ⟨tx?, reads'⟩
        · dsimp [finishDec]
          omega
        · rcases tx? with - | tx
          · dsimp [finishDec]
            omega
          · rcases hl : lsnLoop st tx reads' states with ⟨st1, e⟩ | ⟨st1, tx1, reads1, states1⟩
            · have hb := (lsnLoop_balance reads' st tx states).1 st1 e hl
              simp only [hl]
              omega
            · have hb := (lsnLoop_balance reads' st tx states).2 st1 tx1 reads1 states1 hl
              simp only [hl]
              split
              · have := ih st1 pauses.tail reads1 states1 execRuns execs
                omega
              · split
                · dsimp [finishDec]
                  omega
                · have := ih { st1 with
                    cntx := (ExecuteTx tx1 (execRuns.headD false) (execs.headD ErrC.ok)
                      st1.cntx st1.coord).2.1,
                    coord := (ExecuteTx tx1 (execRuns.headD false) (execs.headD ErrC.ok)
                      st1.cntx st1.coord).2.2.1 } pauses.tail reads1 states1
                    execRuns.tail
                    (if (ExecuteTx tx1 (execRuns.headD false) (execs.headD ErrC.ok)
                      st1.cntx st1.coord).2.2.2 = true then execs.tail else execs)
                  dsimp only at this ⊢
                  omega

end ClusterShardMigration
end Dfly

namespace Dfly
namespace IncomingSlotMigration

theorem Join_nil (attempt startT timeout : Int) :
    Join attempt startT timeout [] = none := rfl

theorem Join_cons (attempt startT timeout : Int) (it : JoinIter) (rest : List JoinIter) :
    Join attempt startT timeout (it :: rest) =
      (if it.now - startT ≥ timeout then
        some { ret := false, exitKind := JoinExit.timeoutExpired, stateWrite := none,
               keysCached := false, errors := ["Can't join migration in time"],
               waits := [], finalIter := some it }
      else if it.state = MigrationState.C_FATAL then
        some { ret := false, exitKind := JoinExit.fatal, stateWrite := none,
               keysCached := false, errors := [], waits := [], finalIter := some it }
      else
        let remaining := timeout - (it.now - startT)
        let wait_time := if remaining > 100 then 100 else remaining
        if it.lastAttempts.all (fun a => a = attempt) = true then
          if it.waitRes = true then
            some { ret := true, exitKind := JoinExit.success,
                   stateWrite := some MigrationState.C_FINISHED, keysCached := true,
                   errors := [], waits := [(remaining, wait_time)], finalIter := some it }
          else
            some { ret := false, exitKind := JoinExit.staleData, stateWrite := none,
                   keysCached := false, errors := ["Can't join migration in time"],
                   waits := [(remaining, wait_time)], finalIter := some it }
        else
          match Join attempt startT timeout rest with
          | none => none
          | some r => some { r with waits := (remaining, wait_time) :: r.waits }) := rfl

/-- A successful `Join` exits through the branch whose iteration saw every
flow's `last_attempt == attempt` and the latch wait succeed, writes
`C_FINISHED`, and caches the key count. -/
theorem Join_ret_true :
    ∀ (iters : List JoinIter) (attempt startT timeout : Int) (r : JoinResult),
    Join attempt startT timeout iters = some r → r.ret = true →
    r.exitKind = JoinExit.success
    ∧ r.stateWrite = some MigrationState.C_FINISHED
    ∧ r.keysCached = true
    ∧ ∃ it, r.finalIter = some it ∧ it.waitRes = true
        ∧ ∀ a ∈ it.lastAttempts, a = attempt := by
  intro iters
  induction iters with
  | nil =>
    intro attempt startT timeout r h
    rw [Join_nil] at h
    simp at h
  | cons it rest ih =>
    intro attempt startT timeout r h hret
    rw [Join_cons] at h
    split at h
    · simp only [Option.some.injEq] at h
      subst h
      simp at hret
    · split at h
      · simp only [Option.some.injEq] at h
        subst h
        simp at hret
      · split at h
        · rename_i hall
          split at h
          · simp only [Option.some.injEq] at h
            subst h
            refine ⟨rfl, rfl, rfl, it, rfl, ?_, ?_⟩
            · rename_i hw
              exact hw
            · intro a ha
              rw [List.all_eq_true] at hall
              simpa using hall a ha
          · simp only [Option.some.injEq] at h
            subst h
            simp at hret
        · rcases hrec : Join attempt startT timeout rest with - | r'
          · rw [hrec] at h
            simp at h
          · rw [hrec] at h
            simp only [Option.some.injEq] at h
            subst h
            have := ih attempt startT timeout r' hrec (by simpa using hret)
            simpa using this

end IncomingSlotMigration
end Dfly

namespace Dfly
namespace IncomingSlotMigration

/-- A `Join` that exits through the deadline branch returns false, reports
the generic timeout error, performs no state write and caches nothing; the
iteration it returned at had `passed >= timeout`. -/
theorem Join_timeout_exit :
    ∀ (iters : List JoinIter) (attempt startT timeout : Int) (r : JoinResult),
    Join attempt startT timeout iters = some r →
    r.exitKind = JoinExit.timeoutExpired →
    r.ret = false ∧ r.errors = ["Can't join migration in time"]
    ∧ r.stateWrite = none ∧ r.keysCached = false
    ∧ ∃ it, r.finalIter = some it ∧ it.now - startT ≥ timeout := by
  intro iters
  induction iters with
  | nil =>
    intro attempt startT timeout r h
    rw [Join_nil] at h
    simp at h
  | cons it rest ih =>
    intro attempt startT timeout r h hexit
    rw [Join_cons] at h
    split at h
    · rename_i hp
      simp only [Option.some.injEq] at h
      subst h
      exact ⟨rfl, rfl, rfl, rfl, it, rfl, hp⟩
    · split at h
      · simp only [Option.some.injEq] at h
        subst h
        simp at hexit
      · split at h
        · split at h
          · simp only [Option.some.injEq] at h
            subst h
            simp at hexit
          · simp only [Option.some.injEq] at h
            subst h
            simp at hexit
        · rcases hrec : Join attempt startT timeout rest with - | r'
          · rw [hrec] at h
            simp at h
          · rw [hrec] at h
            simp only [Option.some.injEq] at h
            subst h
            have := ih attempt startT timeout r' hrec (by simpa using hexit)
            simpa using this

/-- Every `(remaining, wait)` pair `Join` hands to `bc_->WaitFor` has
`wait = min 100 remaining`. -/
theorem Join_waits_min :
    ∀ (iters : List JoinIter) (attempt startT timeout : Int) (r : JoinResult),
    Join attempt startT timeout iters = some r →
    ∀ p ∈ r.waits, p.2 = min 100 p.1 := by
  intro iters
  induction iters with
  | nil =>
    intro attempt startT timeout r h
    rw [Join_nil] at h
    simp at h
  | cons it rest ih =>
    intro attempt startT timeout r h p hp
    rw [Join_cons] at h
    split at h
    · simp only [Option.some.injEq] at h
      subst h
      simp at hp
    · split at h
      · simp only [Option.some.injEq] at h
        subst h
        simp at hp
      · split at h
        · split at h
          · simp only [Option.some.injEq] at h
            subst h
            simp only [List.mem_singleton] at hp
            subst hp
            simp only
            split <;> omega
          · simp only [Option.some.injEq] at h
            subst h
            simp only [List.mem_singleton] at hp
            subst hp
            simp only
            split <;> omega
        · rcases hrec : Join attempt startT timeout rest with - | r'
          · rw [hrec] at h
            simp at h
          · rw [hrec] at h
            simp only [Option.some.injEq] at h
            subst h
            simp only [List.mem_cons] at hp
            rcases hp with hp | hp
            · subst hp
              simp only
              split <;> omega
            · exact ih attempt startT timeout r' hrec p hp

end IncomingSlotMigration
end Dfly

namespace Dfly
namespace IncomingSlotMigration

theorem stopWaitLoop_nil (startT timeout : Int) :
    stopWaitLoop startT timeout [] = none := rfl

theorem stopWaitLoop_cons (startT timeout : Int) (it : StopIter) (rest : List StopIter) :
    stopWaitLoop startT timeout (it :: rest) =
      (if it.waitRes = true then
        some ([(it.now - startT, timeout - (it.now - startT))], false)
      else if it.now - startT ≥ timeout then
        some ([(it.now - startT, timeout - (it.now - startT))], true)
      else
        match stopWaitLoop startT timeout rest with
        | none => none
        | some (ws, t) =>
          some ((it.now - startT, timeout - (it.now - startT)) :: ws, t)) := rfl

/-- Shape of a terminating `Stop` wait loop: at least one `WaitFor` happens,
each waits the full remaining time, and the timeout log is only reached by
an iteration whose `passed >= timeout`. -/
theorem stopWaitLoop_spec :
    ∀ (iters : List StopIter) (startT timeout : Int) (ws : List (Int × Int)) (t : Bool),
    stopWaitLoop startT timeout iters = some (ws, t) →
    ws ≠ [] ∧ (∀ p ∈ ws, p.2 = timeout - p.1) ∧ (t = true → ∃ p ∈ ws, p.1 ≥ timeout) := by
  intro iters
  induction iters with
  | nil =>
    intro startT timeout ws t h
    rw [stopWaitLoop_nil] at h
    simp at h
  | cons it rest ih =>
    intro startT timeout ws t h
    rw [stopWaitLoop_cons] at h
    split at h
    · simp only [Option.some.injEq, Prod.mk.injEq] at h
      obtain ⟨h1, h2⟩ := h
      subst h1
      subst h2
      refine ⟨by simp, by simp, by simp⟩
    · split at h
      · rename_i hp
        simp only [Option.some.injEq, Prod.mk.injEq] at h
        obtain ⟨h1, h2⟩ := h
        subst h1
        subst h2
        exact ⟨by simp, by simp, fun _ => ⟨_, List.mem_singleton.mpr rfl, hp⟩⟩
      · rcases hrec : stopWaitLoop startT timeout rest with - | ⟨ws', t'⟩
        · rw [hrec] at h
          simp at h
        · rw [hrec] at h
          simp only [Option.some.injEq, Prod.mk.injEq] at h
          obtain ⟨h1, h2⟩ := h
          subst h1
          subst h2
          obtain ⟨hne, hfull, htime⟩ := ih startT timeout ws' t' hrec
          refine ⟨by simp, ?_, ?_⟩
          · intro p hp
            rcases List.mem_cons.mp hp with hp | hp
            · subst hp
              rfl
            · exact hfull p hp
          · intro ht
            obtain ⟨p, hp, hge⟩ := htime ht
            exact ⟨p, List.mem_cons_of_mem _ hp, hge⟩

/-- The `Stop` wait loop terminates as soon as its trace contains a
successful latch wait or an iteration past the deadline. -/
theorem stopWaitLoop_total :
    ∀ (iters : List StopIter) (startT timeout : Int),
    (∃ it ∈ iters, it.waitRes = true ∨ it.now - startT ≥ timeout) →
    (stopWaitLoop startT timeout iters).isSome = true := by
  intro iters
  induction iters with
  | nil =>
    intro startT timeout h
    simp at h
  | cons it rest ih =>
    intro startT timeout h
    rw [stopWaitLoop_cons]
    split
    · simp
    · split
      · simp
      · rename_i hw hp
        have : ∃ i ∈ rest, i.waitRes = true ∨ i.now - startT ≥ timeout := by
          rcases h with ⟨i, hi, hcase⟩
          rcases List.mem_cons.mp hi with hi | hi
          · subst hi
            rcases hcase with hc | hc
            · exact absurd hc hw
            · exact absurd hc hp
          · exact ⟨i, hi, hcase⟩
        have := ih startT timeout this
        rcases hrec : stopWaitLoop startT timeout rest with - | ⟨ws', t'⟩
        · rw [hrec] at this
          simp at this
        · simp

end IncomingSlotMigration
end Dfly

namespace Dfly
namespace ClusterShardMigration

/-- The LSN inner loop only touches `last_attempt_` and the latch: it never
reports an error, and a `return` from inside it is either the clean
finalization or the `C_FATAL` abort. -/
theorem lsnLoop_inl_cases :
    ∀ (reads : List (Option TransactionData)) (st : FlowSt) (tx : TransactionData)
      (states : List MigrationState) (st1 : FlowSt) (e : FlowExit),
    lsnLoop st tx reads states = Sum.inl (st1, e) →
    (e = FlowExit.cleanFinal ∨ e = FlowExit.fatalAbort)
    ∧ st1.cntx = st.cntx ∧ st1.coord = st.coord := by
  intro reads
  induction reads with
  | nil =>
    intro st tx states st1 e h
    rw [lsnLoop_nil] at h
    split at h
    · simp only [Sum.inl.injEq, Prod.mk.injEq] at h
      obtain ⟨h1, h2⟩ := h
      subst h1
      exact ⟨Or.inl h2.symm, rfl, rfl⟩
    · simp at h
  | cons hd tl ih =>
    intro st tx states st1 e h
    match hd with
    | Option.none =>
      rw [lsnLoop_none] at h
      split at h
      · simp only [Sum.inl.injEq, Prod.mk.injEq] at h
        obtain ⟨h1, h2⟩ := h
        subst h1
        exact ⟨Or.inl h2.symm, rfl, rfl⟩
      · simp at h
    | Option.some tx2 =>
      rw [lsnLoop_some] at h
      split at h
      · split at h
        · simp only [Sum.inl.injEq, Prod.mk.injEq] at h
          obtain ⟨h1, h2⟩ := h
          subst h1
          exact ⟨Or.inr h2.symm, rfl, rfl⟩
        · have h2 := ih { st with last_attempt := tx.lsn, decs := st.decs + 1, adds := st.adds + 1 } tx2 states.tail st1 e h
          exact ⟨h2.1, h2.2.1, h2.2.2⟩
      · simp at h

/-- Handing a transaction back to the outer loop leaves both contexts as
they were. -/
theorem lsnLoop_inr_ctx :
    ∀ (reads : List (Option TransactionData)) (st : FlowSt) (tx : TransactionData)
      (states : List MigrationState) (st1 : FlowSt) (tx1 : TransactionData)
      (reads1 : List (Option TransactionData)) (states1 : List MigrationState),
    lsnLoop st tx reads states = Sum.inr (st1, tx1, reads1, states1) →
    st1.cntx = st.cntx ∧ st1.coord = st.coord := by
  intro reads
  induction reads with
  | nil =>
    intro st tx states st1 tx1 reads1 states1 h
    rw [lsnLoop_nil] at h
    split at h
    · simp at h
    · simp only [Sum.inr.injEq, Prod.mk.injEq] at h
      obtain ⟨h1, -⟩ := h
      subst h1
      exact ⟨rfl, rfl⟩
  | cons hd tl ih =>
    intro st tx states st1 tx1 reads1 states1 h
    match hd with
    | Option.none =>
      rw [lsnLoop_none] at h
      split at h
      · simp at h
      · simp only [Sum.inr.injEq, Prod.mk.injEq] at h
        obtain ⟨h1, -⟩ := h
        subst h1
        exact ⟨rfl, rfl⟩
    | Option.some tx2 =>
      rw [lsnLoop_some] at h
      split at h
      · split at h
        · simp at h
        · have h2 := ih { st with last_attempt := tx.lsn, decs := st.decs + 1, adds := st.adds + 1 } tx2 states.tail st1 tx1 reads1 states1 h
          exact ⟨h2.1, h2.2⟩
      · simp only [Sum.inr.injEq, Prod.mk.injEq] at h
        obtain ⟨h1, -⟩ := h
        subst h1
        exact ⟨rfl, rfl⟩

/-- `ExecuteTx` never calls `ReportFatalError`: the coordinator's fatal
reports are untouched whatever branch is taken. -/
theorem ExecuteTx_fatalReports (tx : TransactionData) (running : Bool) (e : ErrC)
    (cntx : ExecutionState) (coord : CoordLog) :
    ((ExecuteTx tx running e cntx coord).2.2.1).fatalReports = coord.fatalReports := by
  unfold ExecuteTx
  split
  · rfl
  · split
    · rfl
    · rfl

/-- `ExecuteTx` returns either success or exactly the executor's result. -/
theorem ExecuteTx_fst (tx : TransactionData) (running : Bool) (e : ErrC)
    (cntx : ExecutionState) (coord : CoordLog) :
    (ExecuteTx tx running e cntx coord).1 = ErrC.ok
    ∨ (ExecuteTx tx running e cntx coord).1 = e := by
  unfold ExecuteTx
  split
  · exact Or.inl rfl
  · split
    · exact Or.inr rfl
    · exact Or.inl rfl

end ClusterShardMigration
end Dfly

namespace Dfly
namespace ClusterShardMigration

/-- If a run of the outer loop exits through the OOM break, the OOM error
stands reported on the flow's execution context and on the coordinator via
`ReportFatalError`. -/
theorem startLoop_oomBreak :
    ∀ (runs : List Bool) (st : FlowSt) (pauses : List Bool)
      (reads : List (Option TransactionData)) (states : List MigrationState)
      (execRuns : List Bool) (execs : List ErrC) (fr : FlowResult),
    startLoop st runs pauses reads states execRuns execs = fr →
    fr.exitKind = FlowExit.oomBreak →
    kIncomingMigrationOOM ∈ fr.st.cntx.errors
    ∧ kIncomingMigrationOOM ∈ fr.st.coord.fatalReports := by
  intro runs
  induction runs with
  | nil =>
    intro st pauses reads states execRuns execs fr hfr hexit
    rw [startLoop_nil] at hfr
    subst hfr
    simp [finishDec] at hexit
  | cons r runs' ih =>
    intro st pauses reads states execRuns execs fr hfr hexit
    rw [startLoop_cons] at hfr
    split at hfr
    · subst hfr
      simp [finishDec] at hexit
    · split at hfr
      · exact ih st pauses.tail reads states execRuns execs fr hfr hexit
      · rcases reads with - | ⟨tx?, reads'⟩
        · subst hfr
          simp [finishDec] at hexit
        · rcases tx? with - | tx
          · subst hfr
            simp [finishDec] at hexit
          · dsimp only at hfr
            rcases hl : lsnLoop st tx reads' states with ⟨st1, e⟩ | ⟨st1, tx1, reads1, states1⟩
            · rw [hl] at hfr
              dsimp only at hfr
              subst hfr
              obtain ⟨he, -, -⟩ := lsnLoop_inl_cases reads' st tx states st1 e hl
              rcases he with he | he <;> simp [he] at hexit
            · rw [hl] at hfr
              dsimp only at hfr
              split at hfr
              · exact ih st1 pauses.tail reads1 states1 execRuns execs fr hfr hexit
              · split at hfr
                · subst hfr
                  constructor
                  · simp [finishDec, ExecutionState.ReportError]
                  · simp [finishDec, CoordLog.reportFatal]
                · exact ih _ pauses.tail reads1 states1 execRuns.tail _ fr hfr hexit

end ClusterShardMigration
end Dfly

namespace Dfly
namespace ClusterShardMigration

/-- If the executor never reports `not_enough_memory` during a run, the run
never calls `ReportFatalError`: the coordinator's fatal reports are exactly
what they were when the flow started. -/
theorem startLoop_no_oom_fatal :
    ∀ (runs : List Bool) (st : FlowSt) (pauses : List Bool)
      (reads : List (Option TransactionData)) (states : List MigrationState)
      (execRuns : List Bool) (execs : List ErrC) (fr : FlowResult),
    startLoop st runs pauses reads states execRuns execs = fr →
    (∀ e ∈ execs, e ≠ ErrC.not_enough_memory) →
    fr.st.coord.fatalReports = st.coord.fatalReports := by
  intro runs
  induction runs with
  | nil =>
    intro st pauses reads states execRuns execs fr hfr hexecs
    rw [startLoop_nil] at hfr
    subst hfr
    simp [finishDec]
  | cons r runs' ih =>
    intro st pauses reads states execRuns execs fr hfr hexecs
    rw [startLoop_cons] at hfr
    split at hfr
    · subst hfr
      simp [finishDec]
    · split at hfr
      · exact ih st pauses.tail reads states execRuns execs fr hfr hexecs
      · rcases reads with - | ⟨tx?, reads'⟩
        · subst hfr
          simp [finishDec]
        · rcases tx? with - | tx
          · subst hfr
            simp [finishDec]
          · dsimp only at hfr
            rcases hl : lsnLoop st tx reads' states with ⟨st1, e⟩ | ⟨st1, tx1, reads1, states1⟩
            · rw [hl] at hfr
              dsimp only at hfr
              subst hfr
              obtain ⟨-, -, hco⟩ := lsnLoop_inl_cases reads' st tx states st1 e hl
              rw [hco]
            · rw [hl] at hfr
              dsimp only at hfr
              obtain ⟨-, hco⟩ := lsnLoop_inr_ctx reads' st tx states st1 tx1 reads1 states1 hl
              split at hfr
              · rw [ih st1 pauses.tail reads1 states1 execRuns execs fr hfr hexecs, hco]
              · split at hfr
                · rename_i hoom
                  exfalso
                  rcases ExecuteTx_fst tx1 (execRuns.headD false) (execs.headD ErrC.ok)
                      st1.cntx st1.coord with hok | hres
                  · rw [hok] at hoom
                    exact ErrC.noConfusion hoom
                  · rw [hres] at hoom
                    rcases execs with - | ⟨e0, es⟩
                    · exact ErrC.noConfusion hoom
                    · exact hexecs e0 (List.mem_cons_self e0 es) (by simpa using hoom)
                · rename_i hoom
                  have hexecs' : ∀ e ∈ (if (ExecuteTx tx1 (execRuns.headD false)
                      (execs.headD ErrC.ok) st1.cntx st1.coord).2.2.2 = true
                      then execs.tail else execs), e ≠ ErrC.not_enough_memory := by
                    intro e he
                    split at he
                    · exact hexecs e (List.mem_of_mem_tail he)
                    · exact hexecs e he
                  have hrec := ih _ pauses.tail reads1 states1 execRuns.tail _ fr hfr hexecs'
                  rw [hrec]
                  dsimp only
                  rw [ExecuteTx_fatalReports, hco]

end ClusterShardMigration
end Dfly

namespace Dfly

/-- C1: for every flow, the shared countdown latch is decremented exactly
once net across the union of its exit paths — any terminating run of
`Start` on a not-yet-finished flow nets one decrement (clean finalization
after an LSN marker, fatal abort, read failure, OOM break, or cancellation
all included, failed finalization attempts being balanced Dec-then-Add);
`Start` on an already-finished flow performs no latch operation; `Cancel`
on a never-started flow decrements once, and on a started flow not at
all. -/
theorem C1_latch_net_decrement_once
    (ctl : FlowCtl) (st : FlowSt) (runs pauses : List Bool)
    (reads : List (Option TransactionData)) (states : List MigrationState)
    (execRuns : List Bool) (execs : List ErrC) (socketOpen : Bool) (shutdownEc : ErrC) :
    (ctl.is_finished = false →
      (ClusterShardMigration.Start ctl st runs pauses reads states execRuns execs).2.st.decs
          + st.adds
        = (ClusterShardMigration.Start ctl st runs pauses reads states execRuns execs).2.st.adds
          + st.decs + 1)
    ∧ (ctl.is_finished = true →
      (ClusterShardMigration.Start ctl st runs pauses reads states execRuns execs).2.st = st)
    ∧ (ctl.socket = false → ctl.is_finished = false →
      (ClusterShardMigration.Cancel ctl socketOpen shutdownEc).decs = 1)
    ∧ ((ctl.socket = true ∨ ctl.is_finished = true) →
      (ClusterShardMigration.Cancel ctl socketOpen shutdownEc).decs = 0) := by
  refine ⟨?_, ?_, ?_, ?_⟩
  · intro h
    unfold ClusterShardMigration.Start
    rw [if_neg (by simp [h])]
    exact ClusterShardMigration.startLoop_balance runs st pauses reads states execRuns execs
  · intro h
    unfold ClusterShardMigration.Start
    rw [if_pos h]
  · intro hs hf
    unfold ClusterShardMigration.Cancel
    rw [if_neg (by simp [hs]), if_pos hf]
  · intro h
    unfold ClusterShardMigration.Cancel
    rcases h with h | h
    · rw [if_pos h]
      split <;> rfl
    · by_cases hs : ctl.socket = true
      · rw [if_pos hs]
        split <;> rfl
      · rw [if_neg hs, if_neg (by simp [h])]

/-- Witness for C1: a flow whose stream ends at once nets exactly one latch
decrement, and cancelling a never-started flow decrements once. -/
theorem C1_latch_net_decrement_once_witness :
    ((ClusterShardMigration.Start ⟨false, false⟩ initFlowSt [true] [] [] [] [] []).2.st.decs
        + initFlowSt.adds
      = (ClusterShardMigration.Start ⟨false, false⟩ initFlowSt [true] [] [] [] [] []).2.st.adds
        + initFlowSt.decs + 1)
    ∧ (ClusterShardMigration.Cancel ⟨false, false⟩ false ErrC.ok).decs = 1 :=
  ⟨(C1_latch_net_decrement_once ⟨false, false⟩ initFlowSt [true] [] [] [] [] []
      false ErrC.ok).1 rfl,
   (C1_latch_net_decrement_once ⟨false, false⟩ initFlowSt [true] [] [] [] [] []
      false ErrC.ok).2.2.1 rfl rfl⟩

end Dfly

namespace Dfly

/-- C2: `Join(attempt)` returns true only if, at the iteration whose latch
wait read zero, every flow's `last_attempt` equals `attempt`; on success it
writes `C_FINISHED` to the migration state and caches the key count for
the owned slots. -/
theorem C2_join_success_freshness (attempt startT timeout : Int)
    (iters : List IncomingSlotMigration.JoinIter) (r : IncomingSlotMigration.JoinResult)
    (h : IncomingSlotMigration.Join attempt startT timeout iters = some r)
    (hret : r.ret = true) :
    r.exitKind = IncomingSlotMigration.JoinExit.success
    ∧ r.stateWrite = some MigrationState.C_FINISHED
    ∧ r.keysCached = true
    ∧ ∃ it, r.finalIter = some it ∧ it.waitRes = true
        ∧ ∀ a ∈ it.lastAttempts, a = attempt :=
  IncomingSlotMigration.Join_ret_true iters attempt startT timeout r h hret



/-- Witness for C2: a join whose single iteration sees both flows at
attempt 2 and the latch at zero succeeds, finishing the migration and
caching the key count. -/
theorem C2_join_success_freshness_witness :
    c2JoinRes.exitKind = IncomingSlotMigration.JoinExit.success
    ∧ c2JoinRes.stateWrite = some MigrationState.C_FINISHED
    ∧ c2JoinRes.keysCached = true
    ∧ ∃ it, c2JoinRes.finalIter = some it ∧ it.waitRes = true
        ∧ ∀ a ∈ it.lastAttempts, a = (2 : Int) :=
  C2_join_success_freshness 2 0 1000 [c2JoinIter] c2JoinRes rfl rfl

end Dfly

namespace Dfly

/-- C3: when the executor returns `not_enough_memory` for a transaction
(the run of `Start` exits through the OOM break), the flow has reported
the OOM error on its execution context and on the coordinator via
`ReportFatalError` — forcing the state to `C_FATAL` — its read loop has
terminated, and `StartFlow` invokes the coordinator's `Stop()` after the
flow returns. -/
theorem C3_oom_reports_and_stop
    (ctl : FlowCtl) (st : FlowSt) (runs pauses : List Bool)
    (reads : List (Option TransactionData)) (states : List MigrationState)
    (execRuns : List Bool) (execs : List ErrC) (baseState : MigrationState)
    (h : (ClusterShardMigration.Start ctl st runs pauses reads states execRuns execs).2.exitKind
      = FlowExit.oomBreak) :
    kIncomingMigrationOOM ∈
      (ClusterShardMigration.Start ctl st runs pauses reads states execRuns execs).2.st.cntx.errors
    ∧ kIncomingMigrationOOM ∈
      (ClusterShardMigration.Start ctl st runs pauses reads states
        execRuns execs).2.st.coord.fatalReports
    ∧ coordStateAfter baseState
        (ClusterShardMigration.Start ctl st runs pauses reads states execRuns execs).2.st.coord
      = MigrationState.C_FATAL
    ∧ (IncomingSlotMigration.StartFlow ctl st runs pauses reads states execRuns execs
        baseState).2 = true := by
  by_cases hctl : ctl.is_finished = true
  · exfalso
    unfold ClusterShardMigration.Start at h
    rw [if_pos hctl] at h
    exact FlowExit.noConfusion h
  · have hstart : ClusterShardMigration.Start ctl st runs pauses reads states execRuns execs
        = (⟨true, false⟩, ClusterShardMigration.startLoop st runs pauses reads states
            execRuns execs) := by
      unfold ClusterShardMigration.Start
      rw [if_neg hctl]
    rw [hstart] at h ⊢
    obtain ⟨hcntx, hfatal⟩ := ClusterShardMigration.startLoop_oomBreak runs st pauses reads
      states execRuns execs _ rfl h
    refine ⟨hcntx, hfatal, ?_, ?_⟩
    · unfold coordStateAfter
      rw [if_neg (by intro hempty; rw [hempty] at hfatal; exact List.not_mem_nil _ hfatal)]
    · unfold IncomingSlotMigration.StartFlow
      rw [hstart]
      simp only [decide_eq_true_eq]
      unfold coordStateAfter
      rw [if_neg (by intro hempty; rw [hempty] at hfatal; exact List.not_mem_nil _ hfatal)]

end Dfly

namespace Dfly



/-- Witness for C3: a one-transaction stream whose execution reports OOM. -/
theorem C3_oom_reports_and_stop_witness :
    kIncomingMigrationOOM ∈
      (ClusterShardMigration.Start ⟨false, false⟩ initFlowSt [true] [] [some cmdTx] []
        [true] [ErrC.not_enough_memory]).2.st.cntx.errors
    ∧ kIncomingMigrationOOM ∈
      (ClusterShardMigration.Start ⟨false, false⟩ initFlowSt [true] [] [some cmdTx] []
        [true] [ErrC.not_enough_memory]).2.st.coord.fatalReports
    ∧ coordStateAfter MigrationState.C_SYNC
        (ClusterShardMigration.Start ⟨false, false⟩ initFlowSt [true] [] [some cmdTx] []
          [true] [ErrC.not_enough_memory]).2.st.coord
      = MigrationState.C_FATAL
    ∧ (IncomingSlotMigration.StartFlow ⟨false, false⟩ initFlowSt [true] [] [some cmdTx] []
        [true] [ErrC.not_enough_memory] MigrationState.C_SYNC).2 = true :=
  C3_oom_reports_and_stop ⟨false, false⟩ initFlowSt [true] [] [some cmdTx] []
    [true] [ErrC.not_enough_memory] MigrationState.C_SYNC rfl

end Dfly

namespace Dfly

/-- Counterexample to C4 as stated: the executor fails a transaction with
an I/O error (not OOM), yet nothing is surfaced via the execution context —
after the run the flow's context holds no error at all (and the coordinator
saw neither a report nor a fatal report). -/
theorem C4_counterexample :
    (ClusterShardMigration.startLoop initFlowSt [true, true] [] [some cmdTx] []
        [true] [ErrC.other "io error"]).st.cntx.errors = []
    ∧ (ClusterShardMigration.startLoop initFlowSt [true, true] [] [some cmdTx] []
        [true] [ErrC.other "io error"]).st.coord.reports = []
    ∧ (ClusterShardMigration.startLoop initFlowSt [true, true] [] [some cmdTx] []
        [true] [ErrC.other "io error"]).st.coord.fatalReports = [] :=
  ⟨rfl, rfl, rfl⟩

/-- C4 (amended): an executor error other than `not_enough_memory` is
returned by `ExecuteTx` to the read loop with both contexts untouched — the
flow does not surface it via the execution context — and a run whose
executor results never include `not_enough_memory` never escalates the
coordinator to `C_FATAL` (its fatal reports are unchanged). -/
theorem C4_non_oom_not_escalated
    (tx : TransactionData) (e : ErrC) (cntx : ExecutionState) (coord : CoordLog)
    (st : FlowSt) (runs pauses : List Bool)
    (reads : List (Option TransactionData)) (states : List MigrationState)
    (execRuns : List Bool) (execs : List ErrC)
    (hglobal : tx.is_global = false)
    (hexecs : ∀ e' ∈ execs, e' ≠ ErrC.not_enough_memory) :
    ClusterShardMigration.ExecuteTx tx true e cntx coord = (e, cntx, coord, true)
    ∧ (ClusterShardMigration.startLoop st runs pauses reads states
        execRuns execs).st.coord.fatalReports = st.coord.fatalReports := by
  constructor
  · unfold ClusterShardMigration.ExecuteTx
    rw [if_neg (by simp), if_pos hglobal]
  · exact ClusterShardMigration.startLoop_no_oom_fatal runs st pauses reads states
      execRuns execs _ rfl hexecs

/-- Witness for C4 (amended) at the I/O-error run of the counterexample. -/
theorem C4_non_oom_not_escalated_witness :
    ClusterShardMigration.ExecuteTx cmdTx true (ErrC.other "io error") ⟨[]⟩ ⟨[], []⟩
      = (ErrC.other "io error", ⟨[]⟩, ⟨[], []⟩, true)
    ∧ (ClusterShardMigration.startLoop initFlowSt [true, true] [] [some cmdTx] []
        [true] [ErrC.other "io error"]).st.coord.fatalReports
      = initFlowSt.coord.fatalReports :=
  C4_non_oom_not_escalated cmdTx (ErrC.other "io error") ⟨[]⟩ ⟨[], []⟩
    initFlowSt [true, true] [] [some cmdTx] [] [true] [ErrC.other "io error"]
    rfl (by decide)

end Dfly

namespace Dfly

/-- Counterexample to C5 as stated: a `Stop` run (state not `C_FATAL`,
timeout 5000 ms) whose first polling iteration hands `WaitFor` the full
remaining 5000 ms, not `min(100 ms, remaining) = 100 ms`. -/
theorem C5_counterexample :
    IncomingSlotMigration.Stop MigrationState.C_SYNC [] 0 5000 [⟨0, false⟩, ⟨6000, false⟩]
      = some { cntxCanceled := true, flowResults := [],
               waitCalls := [(0, 5000), (6000, -1000)], timedOut := true }
    ∧ ∃ p ∈ [((0 : Int), (5000 : Int)), (6000, -1000)], ¬ p.2 = min 100 (5000 - p.1) :=
  ⟨rfl, (0, 5000), by decide, by decide⟩

/-- C5 (amended): both `Join` and `Stop` enforce the finalization timeout by
wall-clock measurement (each returns at any iteration whose `passed` is at
least the timeout); `Join`'s per-iteration latch wait is
`min(100 ms, remaining)`, while `Stop`'s is the full remaining time
`timeout - passed`. -/
theorem C5_wait_durations :
    (∀ (attempt startT timeout : Int) (iters : List IncomingSlotMigration.JoinIter)
      (r : IncomingSlotMigration.JoinResult),
      IncomingSlotMigration.Join attempt startT timeout iters = some r →
      ∀ p ∈ r.waits, p.2 = min 100 p.1)
    ∧ (∀ (state : MigrationState) (flows : List (FlowCtl × Bool × ErrC))
      (startT timeout : Int) (iters : List IncomingSlotMigration.StopIter)
      (r : IncomingSlotMigration.StopResult),
      IncomingSlotMigration.Stop state flows startT timeout iters = some r →
      ∀ p ∈ r.waitCalls, p.2 = timeout - p.1)
    ∧ (∀ (attempt startT timeout : Int) (it : IncomingSlotMigration.JoinIter)
      (rest : List IncomingSlotMigration.JoinIter),
      it.now - startT ≥ timeout →
      IncomingSlotMigration.Join attempt startT timeout (it :: rest)
        = some { ret := false, exitKind := IncomingSlotMigration.JoinExit.timeoutExpired,
                 stateWrite := none, keysCached := false,
                 errors := ["Can't join migration in time"],
                 waits := [], finalIter := some it })
    ∧ (∀ (startT timeout : Int) (it : IncomingSlotMigration.StopIter)
      (rest : List IncomingSlotMigration.StopIter),
      it.now - startT ≥ timeout →
      (IncomingSlotMigration.stopWaitLoop startT timeout (it :: rest)).isSome = true) := by
  refine ⟨?_, ?_, ?_, ?_⟩
  · intro attempt startT timeout iters r h
    exact IncomingSlotMigration.Join_waits_min iters attempt startT timeout r h
  · intro state flows startT timeout iters r h
    unfold IncomingSlotMigration.Stop at h
    split at h
    · simp only [Option.some.injEq] at h
      subst h
      intro p hp
      simp at hp
    · rcases hrec : IncomingSlotMigration.stopWaitLoop startT timeout iters with - | ⟨ws, t⟩
      · rw [hrec] at h
        simp at h
      · rw [hrec] at h
        simp only [Option.some.injEq] at h
        subst h
        intro p hp
        exact (IncomingSlotMigration.stopWaitLoop_spec iters startT timeout ws t hrec).2.1 p hp
  · intro attempt startT timeout it rest hge
    rw [IncomingSlotMigration.Join_cons, if_pos hge]
  · intro startT timeout it rest hge
    rw [IncomingSlotMigration.stopWaitLoop_cons]
    split
    · simp
    · simp [hge]

/-- Witness for C5 (amended) at the counterexample's `Stop` run and the C2
witness's `Join` run. -/
theorem C5_wait_durations_witness :
    ((100 : Int) = min 100 990)
    ∧ ((5000 : Int) = 5000 - 0)
    ∧ IncomingSlotMigration.Join 2 0 1000
        [⟨2000, MigrationState.C_SYNC, [2], true⟩]
        = some { ret := false, exitKind := IncomingSlotMigration.JoinExit.timeoutExpired,
                 stateWrite := none, keysCached := false,
                 errors := ["Can't join migration in time"],
                 waits := [], finalIter := some ⟨2000, MigrationState.C_SYNC, [2], true⟩ } :=
  ⟨C5_wait_durations.1 2 0 1000 [⟨10, MigrationState.C_SYNC, [2, 2], true⟩] c2JoinRes rfl
      (990, 100) (by decide),
   C5_wait_durations.2.1 MigrationState.C_SYNC [] 0 5000 [⟨0, false⟩, ⟨6000, false⟩]
      { cntxCanceled := true, flowResults := [],
        waitCalls := [(0, 5000), (6000, -1000)], timedOut := true } rfl (0, 5000) (by decide),
   C5_wait_durations.2.2.1 2 0 1000 ⟨2000, MigrationState.C_SYNC, [2], true⟩ [] (by decide)⟩

end Dfly

namespace Dfly

/-- C6: `Stop()` in state `C_FATAL` cancels the execution context and every
flow but performs no latch wait; in any other state it additionally waits
on the latch under the finalization timeout — the timeout log is reached
only past the deadline, and the wait loop terminates as soon as the latch
fires or the wall clock passes the deadline (it never blocks
indefinitely). -/
theorem C6_stop_fatal_no_wait
    (flows : List (FlowCtl × Bool × ErrC)) (startT timeout : Int)
    (iters : List IncomingSlotMigration.StopIter) :
    (IncomingSlotMigration.Stop MigrationState.C_FATAL flows startT timeout iters
      = some { cntxCanceled := true,
               flowResults := flows.map
                 (fun f => ClusterShardMigration.Cancel f.1 f.2.1 f.2.2),
               waitCalls := [], timedOut := false })
    ∧ (∀ state : MigrationState, state ≠ MigrationState.C_FATAL →
        ∀ r, IncomingSlotMigration.Stop state flows startT timeout iters = some r →
        r.cntxCanceled = true
        ∧ r.flowResults = flows.map (fun f => ClusterShardMigration.Cancel f.1 f.2.1 f.2.2)
        ∧ r.waitCalls ≠ []
        ∧ (r.timedOut = true → ∃ p ∈ r.waitCalls, p.1 ≥ timeout))
    ∧ (∀ state : MigrationState, state ≠ MigrationState.C_FATAL →
        (∃ it ∈ iters, it.waitRes = true ∨ it.now - startT ≥ timeout) →
        (IncomingSlotMigration.Stop state flows startT timeout iters).isSome = true) := by
  refine ⟨?_, ?_, ?_⟩
  · unfold IncomingSlotMigration.Stop
    rw [if_pos rfl]
  · intro state hstate r h
    unfold IncomingSlotMigration.Stop at h
    rw [if_neg hstate] at h
    rcases hrec : IncomingSlotMigration.stopWaitLoop startT timeout iters with - | ⟨ws, t⟩
    · rw [hrec] at h
      simp at h
    · rw [hrec] at h
      simp only [Option.some.injEq] at h
      subst h
      obtain ⟨hne, -, htime⟩ :=
        IncomingSlotMigration.stopWaitLoop_spec iters startT timeout ws t hrec
      exact ⟨rfl, rfl, hne, htime⟩
  · intro state hstate hterm
    unfold IncomingSlotMigration.Stop
    rw [if_neg hstate]
    have := IncomingSlotMigration.stopWaitLoop_total iters startT timeout hterm
    rcases hrec : IncomingSlotMigration.stopWaitLoop startT timeout iters with - | ⟨ws, t⟩
    · rw [hrec] at this
      simp at this
    · simp

/-- Witness for C6: one never-started flow, a trace whose second iteration
passes the 5000 ms deadline. -/
theorem C6_stop_fatal_no_wait_witness :
    (IncomingSlotMigration.Stop MigrationState.C_FATAL [(⟨false, false⟩, false, ErrC.ok)]
        0 5000 [⟨0, false⟩]
      = some { cntxCanceled := true,
               flowResults := [(⟨false, false⟩, false, ErrC.ok)].map
                 (fun f => ClusterShardMigration.Cancel f.1 f.2.1 f.2.2),
               waitCalls := [], timedOut := false })
    ∧ (IncomingSlotMigration.Stop MigrationState.C_SYNC [(⟨false, false⟩, false, ErrC.ok)]
        0 5000 [⟨0, false⟩, ⟨6000, false⟩]).isSome = true :=
  ⟨(C6_stop_fatal_no_wait [(⟨false, false⟩, false, ErrC.ok)] 0 5000 [⟨0, false⟩]).1,
   (C6_stop_fatal_no_wait [(⟨false, false⟩, false, ErrC.ok)] 0 5000
      [⟨0, false⟩, ⟨6000, false⟩]).2.2 MigrationState.C_SYNC (by decide)
      ⟨⟨6000, false⟩, by decide, by decide⟩⟩

end Dfly

namespace Dfly

/-- C7: when `Join(attempt)` exits through the expired-deadline branch, it
reports the generic "Can't join migration in time" error on the
coordinator, returns false, and leaves the migration state untouched (no
state write, nothing cached); the iteration it returned at had
`passed >= timeout`. -/
theorem C7_join_timeout_error (attempt startT timeout : Int)
    (iters : List IncomingSlotMigration.JoinIter) (r : IncomingSlotMigration.JoinResult)
    (h : IncomingSlotMigration.Join attempt startT timeout iters = some r)
    (hexit : r.exitKind = IncomingSlotMigration.JoinExit.timeoutExpired) :
    r.ret = false ∧ r.errors = ["Can't join migration in time"]
    ∧ r.stateWrite = none ∧ r.keysCached = false
    ∧ ∃ it, r.finalIter = some it ∧ it.now - startT ≥ timeout :=
  IncomingSlotMigration.Join_timeout_exit iters attempt startT timeout r h hexit



/-- Witness for C7 at that expired join. -/
theorem C7_join_timeout_error_witness :
    c7JoinRes.ret = false ∧ c7JoinRes.errors = ["Can't join migration in time"]
    ∧ c7JoinRes.stateWrite = none ∧ c7JoinRes.keysCached = false
    ∧ ∃ it, c7JoinRes.finalIter = some it ∧ it.now - 0 ≥ 1000 :=
  C7_join_timeout_error 2 0 1000 [⟨2000, MigrationState.C_SYNC, [2], false⟩]
    c7JoinRes rfl rfl

/-- C9: if an iteration of `Join(attempt)` starts inside the deadline with
the coordinator not fatal, sees every flow's `last_attempt` equal to
`attempt`, and its latch wait returns false, then `Join` reports the
"Can't join migration in time" error and returns false at that very
iteration — one single wait, no further polling of the remaining trace. -/
theorem C9_join_stale_returns_immediately (attempt startT timeout : Int)
    (it : IncomingSlotMigration.JoinIter) (rest : List IncomingSlotMigration.JoinIter)
    (h1 : it.now - startT < timeout) (h2 : it.state ≠ MigrationState.C_FATAL)
    (h3 : ∀ a ∈ it.lastAttempts, a = attempt) (h4 : it.waitRes = false) :
    IncomingSlotMigration.Join attempt startT timeout (it :: rest)
      = some { ret := false, exitKind := IncomingSlotMigration.JoinExit.staleData,
               stateWrite := none, keysCached := false,
               errors := ["Can't join migration in time"],
               waits := [(timeout - (it.now - startT),
                 if timeout - (it.now - startT) > 100 then 100
                 else timeout - (it.now - startT))],
               finalIter := some it } := by
  rw [IncomingSlotMigration.Join_cons]
  rw [if_neg (by omega)]
  rw [if_neg h2]
  have hall : it.lastAttempts.all (fun a => a = attempt) = true := by
    rw [List.all_eq_true]
    intro a ha
    simpa using h3 a ha
  rw [if_pos hall, if_neg (by simp [h4])]

/-- Witness for C9: within a 1000 ms deadline, both flows already at
attempt 2 but data arrived after the LSN marker (the latch wait fails). -/
theorem C9_join_stale_returns_immediately_witness :
    IncomingSlotMigration.Join 2 0 1000
      [⟨10, MigrationState.C_SYNC, [2, 2], false⟩,
       ⟨50, MigrationState.C_SYNC, [2, 2], true⟩]
      = some { ret := false, exitKind := IncomingSlotMigration.JoinExit.staleData,
               stateWrite := none, keysCached := false,
               errors := ["Can't join migration in time"],
               waits := [((990 : Int),
                 if (990 : Int) > 100 then 100 else (990 : Int))],
               finalIter := some ⟨10, MigrationState.C_SYNC, [2, 2], false⟩ } :=
  C9_join_stale_returns_immediately 2 0 1000 ⟨10, MigrationState.C_SYNC, [2, 2], false⟩
    [⟨50, MigrationState.C_SYNC, [2, 2], true⟩] (by decide) (by decide)
    (by decide) rfl

end Dfly

namespace Dfly

/-- C8: a transaction that is a global command is not executed during
migration — `ExecuteTx` leaves the executor uninvoked and returns `{}` —
and the descriptive error naming the command is reported on both the
flow's execution context and the coordinator's context, without adding any
fatal report (the coordinator is not forced into `C_FATAL`). -/
theorem C8_global_command_rejected (tx : TransactionData) (execResult : ErrC)
    (cntx : ExecutionState) (coord : CoordLog) (baseState : MigrationState)
    (hglobal : tx.is_global = true) :
    ClusterShardMigration.ExecuteTx tx true execResult cntx coord
      = (ErrC.ok,
         cntx.ReportError ("We don't support command: " ++ tx.cmd_args.headD ""
           ++ " in cluster migration process."),
         coord.report ("We don't support command: " ++ tx.cmd_args.headD ""
           ++ " in cluster migration process."),
         false)
    ∧ ((ClusterShardMigration.ExecuteTx tx true execResult cntx coord).2.2.1).fatalReports
        = coord.fatalReports
    ∧ coordStateAfter baseState
        (ClusterShardMigration.ExecuteTx tx true execResult cntx coord).2.2.1
      = coordStateAfter baseState coord := by
  refine ⟨?_, ?_, ?_⟩
  · unfold ClusterShardMigration.ExecuteTx
    rw [if_neg (by simp), if_neg (by simp [hglobal])]
  · exact ClusterShardMigration.ExecuteTx_fatalReports tx true execResult cntx coord
  · unfold coordStateAfter
    rw [ClusterShardMigration.ExecuteTx_fatalReports tx true execResult cntx coord]



/-- Witness for C8 at that global command. -/
theorem C8_global_command_rejected_witness :
    ClusterShardMigration.ExecuteTx globalTx true ErrC.ok ⟨[]⟩ ⟨[], []⟩
      = (ErrC.ok,
         ExecutionState.ReportError ⟨[]⟩ ("We don't support command: "
           ++ globalTx.cmd_args.headD "" ++ " in cluster migration process."),
         CoordLog.report ⟨[], []⟩ ("We don't support command: "
           ++ globalTx.cmd_args.headD "" ++ " in cluster migration process."),
         false)
    ∧ ((ClusterShardMigration.ExecuteTx globalTx true ErrC.ok ⟨[]⟩ ⟨[], []⟩).2.2.1).fatalReports
        = (⟨[], []⟩ : CoordLog).fatalReports
    ∧ coordStateAfter MigrationState.C_SYNC
        (ClusterShardMigration.ExecuteTx globalTx true ErrC.ok ⟨[]⟩ ⟨[], []⟩).2.2.1
      = coordStateAfter MigrationState.C_SYNC ⟨[], []⟩ :=
  C8_global_command_rejected globalTx ErrC.ok ⟨[]⟩ ⟨[], []⟩ MigrationState.C_SYNC rfl

/-- C10: if the execution context is not running when a transaction is
about to be executed, `ExecuteTx` returns the success error code without
invoking the executor and without reporting anything on either context. -/
theorem C10_executeTx_skips_when_not_running (tx : TransactionData) (execResult : ErrC)
    (cntx : ExecutionState) (coord : CoordLog) :
    ClusterShardMigration.ExecuteTx tx false execResult cntx coord
      = (ErrC.ok, cntx, coord, false) := rfl

end Dfly
